import Mathlib

/-!
Shallow embedding of `custom_components/meross_cloud/climate.py`
(`ValveEntityWrapper`), the adapter exposing a Meross valve/thermostat as a
Home Assistant climate entity.

Modelling conventions:
* Python `None`-able fields become `Option` values.
* Temperatures are exact rationals (`ℚ`); the wire carries integers in tenths
  of a degree and the code divides by ten.
* Dictionary payloads from the vendor cloud are modelled with `Option` at each
  nesting level: the outer `none` means the key (or the whole call) is absent,
  so the subsequent attribute access raises; an inner missing key yields
  Python `None`, which compares unequal without raising.
* Side effects on the externally owned device handle and on the host are
  recorded as explicit trace items, so ordering between device calls and
  local mirrored-state writes is visible.
* The two vendor enumerations (`ThermostatV3Mode`, `ThermostatMode`) live in
  the external `meross_iot` SDK; they are transcribed here as closed
  enumerations with name lookup (Python `Enum[name]` raises `KeyError` when
  the name is absent, modelled as a `none` lookup result).
* The `cloud_io` decorator comes from `common.py`, which is not part of the
  sources under verification. Modelled from the spec: command operations "do
  no error handling at all and let any exception from the underlying handle
  propagate uncaught to the host", so the decorator is treated as
  error-transparent (identity) for the command paths.
-/

namespace MerossClimate

/-- Vendor SDK enumeration for the mts100v3 hardware variant. -/
inductive ThermostatV3Mode
  | AUTO
  | COOL
  | CUSTOM
  | ECONOMY
  | HEAT
  deriving DecidableEq

/-- Vendor SDK enumeration for the mts100 hardware variant. -/
inductive ThermostatMode
  | COMFORT
  | CUSTOM
  | ECONOMY
  | SCHEDULE
  deriving DecidableEq

/-- A mirrored operating mode is a member of one of the two vendor
enumerations; Python enum values of different classes never compare equal,
which the tagged sum preserves. -/
inductive DeviceMode
  | v3 (m : ThermostatV3Mode)
  | m100 (m : ThermostatMode)
  deriving DecidableEq

/-- Value lookup `ThermostatV3Mode(v)`: `none` models the `ValueError` raise. -/
def ThermostatV3Mode.ofValue (v : Int) : Option ThermostatV3Mode :=
  if v = 0 then some .CUSTOM
  else if v = 1 then some .HEAT
  else if v = 2 then some .COOL
  else if v = 3 then some .AUTO
  else if v = 4 then some .ECONOMY
  else none

/-- Value lookup `ThermostatMode(v)`: `none` models the `ValueError` raise. -/
def ThermostatMode.ofValue (v : Int) : Option ThermostatMode :=
  if v = 0 then some .CUSTOM
  else if v = 1 then some .COMFORT
  else if v = 2 then some .ECONOMY
  else if v = 3 then some .SCHEDULE
  else none

/-- Name lookup `ThermostatV3Mode[name]`: `none` models the `KeyError` raise. -/
def ThermostatV3Mode.fromName (name : String) : Option ThermostatV3Mode :=
  if name = "AUTO" then some .AUTO
  else if name = "COOL" then some .COOL
  else if name = "CUSTOM" then some .CUSTOM
  else if name = "ECONOMY" then some .ECONOMY
  else if name = "HEAT" then some .HEAT
  else none

/-- Name lookup `ThermostatMode[name]`: `none` models the `KeyError` raise. -/
def ThermostatMode.fromName (name : String) : Option ThermostatMode :=
  if name = "COMFORT" then some .COMFORT
  else if name = "CUSTOM" then some .CUSTOM
  else if name = "ECONOMY" then some .ECONOMY
  else if name = "SCHEDULE" then some .SCHEDULE
  else none

/-- Host platform constants (`homeassistant.components.climate.const`). -/
def HVAC_MODE_OFF : String := "off"

def HVAC_MODE_HEAT : String := "heat"

def HVAC_MODE_AUTO : String := "auto"

def CURRENT_HVAC_OFF : String := "off"

def CURRENT_HVAC_HEAT : String := "heating"

def CURRENT_HVAC_IDLE : String := "idle"

def PRESET_NONE : String := "none"

/-- The adapter's mirrored device state: the mutable fields assigned in
`__init__` (all `None`) and overwritten by refreshes, push events and
command side effects. -/
structure ValveState where
  is_online : Option Bool
  is_on : Option Bool
  device_mode : Option DeviceMode
  current_temperature : Option ℚ
  target_temperature : Option ℚ
  heating : Option Bool
  deriving DecidableEq

/-- The state installed by `__init__` before the constructor's own `update()`
call runs: every mirrored field is `None`. -/
def initState : ValveState :=
  { is_online := none
    is_on := none
    device_mode := none
    current_temperature := none
    target_temperature := none
    heating := none }

/-- Wire-to-mirror temperature decoding: `float(n) / 10`. -/
def decodeTemp (n : Int) : ℚ := (n : ℚ) / 10

/-- Modelled from the spec: the re-encoding direction of the round-trip
property ("encode(decode(x)) = x"), multiplication by ten back into tenths of
a degree; the adapter itself only decodes. -/
def encodeTemp (q : ℚ) : ℚ := q * 10

/-- The `temperature` dictionary of a status snapshot or push event; a `none`
entry models a missing key (Python `dict.get` returns `None`). -/
structure TempDict where
  room : Option Int
  currentSet : Option Int
  heating : Option Int
  deriving DecidableEq

/-- A raw `get_status()` snapshot. Outer `none` on `togglex`, `mode` or
`temperature` means that key is absent (so the chained `.get`/`float` access
raises); the inner `Option Int` is the nested value. -/
structure RawStatus where
  togglex : Option (Option Int)
  mode : Option (Option Int)
  temperature : Option TempDict
  deriving DecidableEq

/-- The externally owned device handle, as far as `update` consults it:
its hardware-variant tag, its `online` attribute, and the result of
`get_status()` (`none` models the call itself raising: unreachable device). -/
structure DeviceHandle where
  type : String
  online : Bool
  get_status : Option RawStatus
  deriving DecidableEq

/-- The body of the `try:` block of `update`, executed statement by
statement. Returns the state reached together with `true` when an exception
was raised (the flag tells `update` to run the `except:` handler); all
assignments made before the raising point persist, exactly as in Python. -/
def updateBody (d : DeviceHandle) (s0 : ValveState) : ValveState × Bool :=
  match d.get_status with
  | none => (s0, true)
  | some st =>
    let s1 := { s0 with is_online := some d.online }
    if d.online then
      match st.togglex with
      | none => (s1, true)
      | some onoff =>
        let s2 := { s1 with is_on := some (decide (onoff = some 1)) }
        match st.mode with
        | none => (s2, true)
        | some modeState =>
          let step :=
            if d.type = "mts100v3" then
              match modeState.bind ThermostatV3Mode.ofValue with
              | none => none
              | some m => some { s2 with device_mode := some (DeviceMode.v3 m) }
            else if d.type = "mts100" then
              match modeState.bind ThermostatMode.ofValue with
              | none => none
              | some m => some { s2 with device_mode := some (DeviceMode.m100 m) }
            else
              some s2
          match step with
          | none => (s2, true)
          | some s3 =>
            match st.temperature with
            | none => (s3, true)
            | some t =>
              match t.room with
              | none => (s3, true)
              | some r =>
                let s4 := { s3 with current_temperature := some (decodeTemp r) }
                match t.currentSet with
                | none => (s4, true)
                | some cs =>
                  let s5 := { s4 with target_temperature := some (decodeTemp cs) }
                  ({ s5 with heating := some (decide (t.heating = some 1)) }, false)
    else
      (s1, false)

/-- `update`: runs the try-block body; on any raise the bare `except:`
swallows the error, logs, and sets the online flag `False`. -/
def update (d : DeviceHandle) (s : ValveState) : ValveState :=
  let r := updateBody d s
  if r.2 then { r.1 with is_online := some false } else r.1

/-- A request the adapter makes of the host framework
(`async_schedule_update_ha_state(force_refresh)`). -/
inductive HostCall
  | schedule_update (force : Bool)
  deriving DecidableEq

/-- A push event delivered by the vendor SDK transport: the two recognized
kinds carry their payloads; `other` stands for every other event class. -/
inductive PushEvent
  | tempChange (temperature : TempDict)
  | modeChange (mode : DeviceMode)
  | other
  deriving DecidableEq

/-- `device_event_handler`: updates mirrored fields from the event payload
and then unconditionally schedules a non-forcing host state update.
`Except.error` models an uncaught exception escaping the handler (missing
payload key under `float(...)`), in which case the trailing schedule call is
never reached. -/
def device_event_handler (evt : PushEvent) (s : ValveState) :
    Except Unit (ValveState × List HostCall) :=
  match evt with
  | .tempChange p =>
    match p.room with
    | none => .error ()
    | some r =>
      let s1 := { s with current_temperature := some (decodeTemp r) }
      match p.currentSet with
      | none => .error ()
      | some cs =>
        let s2 := { s1 with target_temperature := some (decodeTemp cs)
                            heating := some (decide (p.heating = some 1)) }
        .ok (s2, [.schedule_update false])
  | .modeChange m => .ok ({ s with device_mode := some m }, [.schedule_update false])
  | .other => .ok (s, [.schedule_update false])

/-- A call the adapter makes on the device handle. -/
inductive DevCall
  | set_target_temperature (t : Option ℚ)
  | turn_off
  | turn_on
  | set_mode (m : DeviceMode)
  deriving DecidableEq

/-- A write to one of the mirrored fields a command mutates. -/
inductive FieldWrite
  | w_is_on (v : Option Bool)
  | w_device_mode (v : Option DeviceMode)
  deriving DecidableEq

/-- One step of a command operation, in execution order: a device-handle
call, a mirrored-field write, a host request, or a warning log line. -/
inductive CmdStep
  | dev (c : DevCall)
  | write (w : FieldWrite)
  | host (h : HostCall)
  | warn
  deriving DecidableEq

def CmdStep.isDev : CmdStep → Bool
  | .dev _ => true
  | _ => false

def CmdStep.isWrite : CmdStep → Bool
  | .write _ => true
  | _ => false

/-- Replay the mirrored-field writes of a command trace onto a state. -/
def applyCmdTrace (s : ValveState) (tr : List CmdStep) : ValveState :=
  tr.foldl
    (fun acc step =>
      match step with
      | .write (.w_is_on v) => { acc with is_on := v }
      | .write (.w_device_mode v) => { acc with device_mode := v }
      | _ => acc)
    s

/-- Holds when no device call occurs after any mirrored-field write: every
external side effect precedes every local state update in the trace. -/
def devsBeforeWrites : List CmdStep → Bool
  | [] => true
  | step :: rest =>
    (if step.isWrite then rest.all (fun x => ! x.isDev) else true)
      && devsBeforeWrites rest

/-- `set_temperature`: forwards `kwargs.get('temperature')` to the handle;
nothing else happens. -/
def set_temperature (t : Option ℚ) : List CmdStep :=
  [.dev (.set_target_temperature t)]

/-- `set_hvac_mode`: the trace of steps run synchronously, paired with the
vendor mode the registered `turn_on` completion callback will apply
(`none` when no callback is registered). -/
def set_hvac_mode (dtype : String) (hvac_mode : String) :
    List CmdStep × Option DeviceMode :=
  if hvac_mode = HVAC_MODE_OFF then
    ([.dev .turn_off, .write (.w_is_on (some false)),
      .host (.schedule_update false)], none)
  else if dtype = "mts100v3" then
    if hvac_mode = HVAC_MODE_HEAT then
      ([.dev .turn_on, .write (.w_is_on (some true))], some (.v3 .CUSTOM))
    else if hvac_mode = HVAC_MODE_AUTO then
      ([.dev .turn_on, .write (.w_is_on (some true))], some (.v3 .AUTO))
    else ([.warn], none)
  else if dtype = "mts100" then
    if hvac_mode = HVAC_MODE_HEAT then
      ([.dev .turn_on, .write (.w_is_on (some true))], some (.m100 .CUSTOM))
    else if hvac_mode = HVAC_MODE_AUTO then
      ([.dev .turn_on, .write (.w_is_on (some true))], some (.m100 .SCHEDULE))
    else ([.warn], none)
  else ([.warn], none)

/-- The `action(error, response)` closure registered with `turn_on`: when the
error is `None` it calls `set_mode(target)` on the handle and mirrors the
mode locally; otherwise it does nothing. -/
def turn_on_callback (error : Option String) (target : DeviceMode) :
    List CmdStep :=
  if error = none then
    [.dev (.set_mode target), .write (.w_device_mode (some target))]
  else []

/-- `set_preset_mode`: trace of steps, paired with `true` when the enum name
lookup raised (`KeyError` propagating uncaught); the lookup happens before
any handle call, so a raise leaves the trace empty. -/
def set_preset_mode (dtype : String) (preset_mode : String) :
    List CmdStep × Bool :=
  if dtype = "mts100v3" then
    match ThermostatV3Mode.fromName preset_mode with
    | some m =>
      ([.dev (.set_mode (.v3 m)), .write (.w_device_mode (some (.v3 m)))], false)
    | none => ([], true)
  else if dtype = "mts100" then
    match ThermostatMode.fromName preset_mode with
    | some m =>
      ([.dev (.set_mode (.m100 m)), .write (.w_device_mode (some (.m100 m)))], false)
    | none => ([], true)
  else ([.warn], false)

/-- Getter `current_temperature`. -/
def current_temperature (s : ValveState) : Option ℚ := s.current_temperature

/-- Getter `target_temperature`. -/
def target_temperature (s : ValveState) : Option ℚ := s.target_temperature

/-- Getter `available`: the online flag (Python truthiness: `None` and
`False` are both unavailable). -/
def available (s : ValveState) : Bool := s.is_online = some true

/-- Getter `hvac_action`: off when power is not truthy, else heating when
the heating flag is truthy, else idle. -/
def hvac_action (s : ValveState) : String :=
  if s.is_on ≠ some true then CURRENT_HVAC_OFF
  else if s.heating = some true then CURRENT_HVAC_HEAT
  else CURRENT_HVAC_IDLE

/-- Getter `hvac_mode`: off when power is not truthy; otherwise the chain of
enum comparisons from the source, with the final `else` defaulting to heat
(this also covers an undecoded mode). -/
def hvac_mode (s : ValveState) : String :=
  if s.is_on ≠ some true then HVAC_MODE_OFF
  else
    match s.device_mode with
    | some (DeviceMode.v3 ThermostatV3Mode.AUTO) => HVAC_MODE_AUTO
    | some (DeviceMode.v3 ThermostatV3Mode.CUSTOM) => HVAC_MODE_HEAT
    | some (DeviceMode.m100 ThermostatMode.SCHEDULE) => HVAC_MODE_AUTO
    | some (DeviceMode.m100 ThermostatMode.CUSTOM) => HVAC_MODE_HEAT
    | _ => HVAC_MODE_HEAT

/-- Member names of `ThermostatV3Mode`, in definition order, as listed by
`[e.name for e in ThermostatV3Mode]`. -/
def V3ModeNames : List String := ["AUTO", "COOL", "CUSTOM", "ECONOMY", "HEAT"]

/-- Member names of `ThermostatMode`, in definition order. -/
def ModeNames : List String := ["COMFORT", "CUSTOM", "ECONOMY", "SCHEDULE"]

/-- Getter `preset_modes`: chooses the enumeration by runtime type of the
mirrored mode; an undecoded mode yields the `[PRESET_NONE]` placeholder. -/
def preset_modes (s : ValveState) : List String :=
  match s.device_mode with
  | some (DeviceMode.v3 _) => V3ModeNames
  | some (DeviceMode.m100 _) => ModeNames
  | none => [PRESET_NONE]

/-- C10: in the freshly constructed state (all mirrored fields `None`), the
getters are total and degrade safely: `hvac_mode` is the off mode,
`hvac_action` the off action, both temperatures absent, and `preset_modes`
the single-element placeholder list. -/
theorem fresh_state_getters_safe :
    hvac_mode initState = HVAC_MODE_OFF ∧
    hvac_action initState = CURRENT_HVAC_OFF ∧
    current_temperature initState = none ∧
    target_temperature initState = none ∧
    preset_modes initState = [PRESET_NONE] := by decide

/-- C3: whenever the mirrored on/off flag is not truthy, `hvac_mode` returns
the off mode and `hvac_action` the off action, regardless of every other
field. -/
theorem power_off_display (s : ValveState) (h : s.is_on ≠ some true) :
    hvac_mode s = HVAC_MODE_OFF ∧ hvac_action s = CURRENT_HVAC_OFF := by
  unfold hvac_mode hvac_action
  rw [if_pos h, if_pos h]
  exact ⟨rfl, rfl⟩

/-- Witness for C3 at a state with power off but mode, temperatures and the
heating flag all set. -/
theorem power_off_display_w :
    hvac_mode { is_online := some true, is_on := some false,
                device_mode := some (DeviceMode.v3 ThermostatV3Mode.AUTO),
                current_temperature := some 21, target_temperature := some 22,
                heating := some true } = HVAC_MODE_OFF ∧
    hvac_action { is_online := some true, is_on := some false,
                  device_mode := some (DeviceMode.v3 ThermostatV3Mode.AUTO),
                  current_temperature := some 21, target_temperature := some 22,
                  heating := some true } = CURRENT_HVAC_OFF :=
  power_off_display _ (by decide)

/-- C2: a temperature-change push event with room 215, currentSet 220 and
heating 1 sets the mirrored current temperature to 21.5, the target to 22.0,
the heating flag to true, and requests exactly one non-forcing host state
refresh. -/
theorem temp_event_example (s : ValveState) :
    device_event_handler
        (PushEvent.tempChange { room := some 215, currentSet := some 220, heating := some 1 }) s
      = Except.ok ({ s with current_temperature := some (21.5 : ℚ),
                            target_temperature := some (22 : ℚ),
                            heating := some true },
                   [HostCall.schedule_update false]) := by
  simp only [device_event_handler, decodeTemp]
  norm_num

/-- C9 counterexample: for an unrecognized push event the handler leaves the
state unchanged, but it still requests a non-forcing host state refresh (the
schedule call at the end of the handler is unconditional), contradicting the
claim that no refresh is requested. -/
theorem other_event_schedules_cex :
    device_event_handler PushEvent.other initState
      = Except.ok (initState, [HostCall.schedule_update false]) ∧
    [HostCall.schedule_update false] ≠ ([] : List HostCall) :=
  ⟨rfl, by decide⟩

/-- C9 amended: an unrecognized push event is logged, changes no mirrored
field, and still requests exactly one non-forcing host state refresh. -/
theorem other_event_ignored_but_scheduled (s : ValveState) :
    device_event_handler PushEvent.other s
      = Except.ok (s, [HostCall.schedule_update false]) := rfl

/-- C7: a wire integer in tenths of a degree decodes to exactly N / 10,
multiplying back by ten recovers N, and the push-event handler stores exactly
that decoded value. -/
theorem temp_decode_roundtrip (n : Nat) :
    decodeTemp (Int.ofNat n) = (n : ℚ) / 10 ∧
    encodeTemp (decodeTemp (Int.ofNat n)) = (n : ℚ) ∧
    ∀ s : ValveState,
      device_event_handler
          (PushEvent.tempChange
            { room := some (Int.ofNat n), currentSet := some (Int.ofNat n), heating := some 1 }) s
        = Except.ok ({ s with current_temperature := some (decodeTemp (Int.ofNat n)),
                              target_temperature := some (decodeTemp (Int.ofNat n)),
                              heating := some true },
                     [HostCall.schedule_update false]) := by
  refine ⟨?_, ?_, fun s => rfl⟩
  · simp [decodeTemp]
  · simp only [encodeTemp, decodeTemp]
    rw [div_mul_cancel₀]
    · simp
    · norm_num

/-- Device handle whose snapshot decodes power and mode successfully but
lacks the `temperature` dictionary, so the refresh raises only after having
mutated the on/off flag and the mode. -/
def malformedDevice : DeviceHandle :=
  { type := "mts100v3", online := true,
    get_status := some { togglex := some (some 1), mode := some (some 3), temperature := none } }

/-- A pre-refresh state whose on/off flag is false. -/
def preRefreshState : ValveState := { initState with is_on := some false }

/-- C1 counterexample: a refresh on `malformedDevice` raises (the body
reports an exception), the online flag does become false, but the mirrored
on/off flag changes from false to true — so "every other mirrored field is
left unchanged" fails. -/
theorem update_failure_mutates_cex :
    (updateBody malformedDevice preRefreshState).2 = true ∧
    (update malformedDevice preRefreshState).is_online = some false ∧
    preRefreshState.is_on = some false ∧
    (update malformedDevice preRefreshState).is_on = some true := by decide

/-- C1 amended: whenever the refresh body raises, the online flag becomes
false and the error is swallowed (`update` is total); and when the raise is
the status query itself (unreachable device), every other mirrored field is
left unchanged. Fields already assigned before a mid-payload failure keep
their new values, as the counterexample shows. -/
theorem update_failure_amended (d : DeviceHandle) (s : ValveState) :
    ((updateBody d s).2 = true → (update d s).is_online = some false) ∧
    (d.get_status = none → update d s = { s with is_online := some false }) := by
  constructor
  · intro h
    simp [update, h]
  · intro h
    simp [update, updateBody, h]

/-- Witness for C1 amended at an unreachable device. -/
theorem update_failure_amended_w :
    (update { type := "mts100v3", online := true, get_status := none } initState).is_online
      = some false ∧
    update { type := "mts100v3", online := true, get_status := none } initState
      = { initState with is_online := some false } :=
  ⟨(update_failure_amended { type := "mts100v3", online := true, get_status := none }
      initState).1 (by decide),
   (update_failure_amended { type := "mts100v3", online := true, get_status := none }
      initState).2 rfl⟩

/-- C4: for variant mts100v3 and requested mode heat, the synchronous part of
`set_hvac_mode` registers the CUSTOM member as the callback target and marks
the on/off flag on immediately; the no-error callback then issues `set_mode`
with that member, so across the call and its callback the handle receives
exactly one such `set_mode` — and none of them before the callback runs. -/
theorem heat_mode_v3 (s : ValveState) :
    (set_hvac_mode "mts100v3" HVAC_MODE_HEAT).2
      = some (DeviceMode.v3 ThermostatV3Mode.CUSTOM) ∧
    (applyCmdTrace s (set_hvac_mode "mts100v3" HVAC_MODE_HEAT).1).is_on = some true ∧
    List.count (CmdStep.dev (DevCall.set_mode (DeviceMode.v3 ThermostatV3Mode.CUSTOM)))
      ((set_hvac_mode "mts100v3" HVAC_MODE_HEAT).1
        ++ turn_on_callback none (DeviceMode.v3 ThermostatV3Mode.CUSTOM)) = 1 ∧
    List.count (CmdStep.dev (DevCall.set_mode (DeviceMode.v3 ThermostatV3Mode.CUSTOM)))
      (set_hvac_mode "mts100v3" HVAC_MODE_HEAT).1 = 0 :=
  ⟨rfl, rfl, by decide, by decide⟩

/-- C8: requesting the off mode emits exactly the power-off device call, the
local on/off-flag write, and one host refresh request, in that order, for
every hardware variant; replaying the trace changes only the on/off flag. -/
theorem set_hvac_mode_off (dtype : String) (s : ValveState) :
    set_hvac_mode dtype HVAC_MODE_OFF
      = ([CmdStep.dev DevCall.turn_off, CmdStep.write (FieldWrite.w_is_on (some false)),
          CmdStep.host (HostCall.schedule_update false)], none) ∧
    applyCmdTrace s (set_hvac_mode dtype HVAC_MODE_OFF).1
      = { s with is_on := some false } :=
  ⟨rfl, rfl⟩

/-- C5 counterexample: `set_temperature` only calls the device handle; its
trace contains no mirrored-field write, so replaying it leaves the state
unchanged — the claim that every command then optimistically updates the
mirrored state fails for this operation. -/
theorem set_temperature_no_mirror_cex :
    set_temperature (some 22) = [CmdStep.dev (DevCall.set_target_temperature (some 22))] ∧
    applyCmdTrace initState (set_temperature (some 22)) = initState ∧
    (set_temperature (some 22)).all (fun st => ! st.isWrite) = true := by decide

/-- C5 amended: every command operation performs its device-handle side
effects before any mirrored-state write (`devsBeforeWrites` holds for every
trace of `set_hvac_mode`, the turn-on callback, and `set_preset_mode`), and
the mode and preset commands do update the mirrored state optimistically;
`set_temperature`, however, only forwards the value and performs no
mirrored-state update at all. -/
theorem commands_effect_then_mirror (t : Option ℚ) (dtype hm name : String)
    (md : DeviceMode) (s : ValveState) :
    set_temperature t = [CmdStep.dev (DevCall.set_target_temperature t)] ∧
    devsBeforeWrites (set_hvac_mode dtype hm).1 = true ∧
    devsBeforeWrites (turn_on_callback none md) = true ∧
    devsBeforeWrites (set_preset_mode dtype name).1 = true ∧
    applyCmdTrace s (set_hvac_mode "mts100v3" HVAC_MODE_HEAT).1
      = { s with is_on := some true } ∧
    applyCmdTrace s (turn_on_callback none md) = { s with device_mode := some md } ∧
    applyCmdTrace s (set_preset_mode "mts100v3" "AUTO").1
      = { s with device_mode := some (DeviceMode.v3 ThermostatV3Mode.AUTO) } := by
  refine ⟨rfl, ?_, rfl, ?_, rfl, rfl, rfl⟩
  · unfold set_hvac_mode
    repeat' split
    all_goals simp [devsBeforeWrites, CmdStep.isWrite, CmdStep.isDev]
  · unfold set_preset_mode
    repeat' split
    all_goals simp [devsBeforeWrites, CmdStep.isWrite, CmdStep.isDev]

/-- C6: with an unrecognized hardware-variant tag, `set_preset_mode` only
logs a warning (no device call, no mirrored write); with a recognized
variant but a preset name absent from that variant's enumeration, the name
lookup raises before any mutation, and the exception propagates. -/
theorem set_preset_mode_error_paths (dtype name : String) (s : ValveState) :
    (dtype ≠ "mts100v3" → dtype ≠ "mts100" →
      set_preset_mode dtype name = ([CmdStep.warn], false) ∧
      applyCmdTrace s [CmdStep.warn] = s) ∧
    (dtype = "mts100v3" → ThermostatV3Mode.fromName name = none →
      set_preset_mode dtype name = ([], true)) ∧
    (dtype = "mts100" → ThermostatMode.fromName name = none →
      set_preset_mode dtype name = ([], true)) := by
  refine ⟨fun h1 h2 => ⟨?_, rfl⟩, fun h1 h2 => ?_, fun h1 h2 => ?_⟩
  · simp [set_preset_mode, h1, h2]
  · subst h1
    simp [set_preset_mode, h2]
  · subst h1
    simp [set_preset_mode, h2]

/-- Witness for C6 at an unknown variant and at absent preset names. -/
theorem set_preset_mode_error_paths_w :
    (set_preset_mode "foo" "AUTO" = ([CmdStep.warn], false) ∧
      applyCmdTrace initState [CmdStep.warn] = initState) ∧
    set_preset_mode "mts100v3" "NOPE" = ([], true) ∧
    set_preset_mode "mts100" "NOPE" = ([], true) :=
  ⟨(set_preset_mode_error_paths "foo" "AUTO" initState).1 (by decide) (by decide),
   (set_preset_mode_error_paths "mts100v3" "NOPE" initState).2.1 rfl (by decide),
   (set_preset_mode_error_paths "mts100" "NOPE" initState).2.2 rfl (by decide)⟩

end MerossClimate
